import Mathlib

/-!
Verification of the article-scrape / post-compose / publish pipeline in
`src/main.py` against its natural-language specification.

Modelling conventions, fixed once for the whole development:

* Python strings are sequences of code points, modelled as `List Char`
  (abbreviated `Str`).  `len` is `List.length`, slicing `s[:n]` is
  `List.take n`, `+` is `List.append`, `str.strip()` is `pyStrip`,
  `"\n".join` is `List.intercalate`.
* Parsed HTML documents (`BeautifulSoup` objects) are rooted forests of
  `Node`s.  Only the attributes the source ever queries are modelled:
  tag name, `id`, the class list, `href` and `src`.  BeautifulSoup's
  document order (the order of `next_elements`) is pre-order traversal,
  realised by `flatForest`.
* Network I/O is modelled by an explicit environment `SiteEnv` mapping
  URLs to parsed documents; the model-completion endpoint is modelled by
  the text of the first returned completion.  `random.choice` is
  modelled by an arbitrary index oracle `pick`; every theorem below
  quantifies over it, so the theorems hold for every possible random
  draw.
* Python truthiness of an optional string (`None` and `""` are falsy) is
  `pyTruthyOpt`.
* Fallible steps return `Except`/`Option`; calls with observable side
  effects (HTTP requests, device-automation actions, `print`) are
  recorded in explicit traces so that claims about "no request is
  issued" or "nothing is posted" are statements about those traces.
-/

/-- Python strings, modelled as their sequence of code points. -/
abbrev Str := List Char

/-- Embed a Lean string literal as a `Str`. -/
def str (s : String) : Str := s.toList

/-- Python `str.strip()`: remove leading and trailing whitespace. -/
def pyStrip (s : Str) : Str :=
  ((s.dropWhile Char.isWhitespace).reverse.dropWhile Char.isWhitespace).reverse

/-- Python truthiness of an optional string: `None` and `""` are falsy. -/
def pyTruthyOpt : Option Str → Bool
  | none => false
  | some s => !s.isEmpty

/-- Decimal rendering of a natural number, as used by f-string interpolation
of `len(...)`. -/
def natStr (n : Nat) : Str := (Nat.repr n).toList

/-- A node of a parsed HTML document: either a text node
(`NavigableString`) or an element with the attributes the source
queries (`tag`, `id`, class list, `href`, `src`) and its children. -/
inductive Node where
  | text (s : Str)
  | elem (tag : Str) (idAttr : Option Str) (classes : List Str)
      (href : Option Str) (src : Option Str) (children : List Node)

/-- Tag name of a node; `none` for text nodes, mirroring BeautifulSoup's
`.name` being `None` on `NavigableString`s. -/
def tagOf : Node → Option Str
  | .text _ => none
  | .elem t _ _ _ _ _ => some t

/-- The `id` attribute of a node, if any. -/
def idOf : Node → Option Str
  | .text _ => none
  | .elem _ i _ _ _ _ => i

/-- The class list of a node (empty for text nodes). -/
def classesOf : Node → List Str
  | .text _ => []
  | .elem _ _ c _ _ _ => c

/-- The `href` attribute of a node, if any. -/
def hrefOf : Node → Option Str
  | .text _ => none
  | .elem _ _ _ h _ _ => h

/-- The `src` attribute of a node, if any. -/
def srcOf : Node → Option Str
  | .text _ => none
  | .elem _ _ _ _ s _ => s

/-- The children of a node (empty for text nodes). -/
def childrenOf : Node → List Node
  | .text _ => []
  | .elem _ _ _ _ _ cs => cs

mutual

/-- BeautifulSoup `.text` on a node: concatenation of all descendant
text, in document order. -/
def nodeText : Node → Str
  | .text s => s
  | .elem _ _ _ _ _ cs => forestText cs

/-- BeautifulSoup `.text` over a forest. -/
def forestText : List Node → Str
  | [] => []
  | n :: ns => nodeText n ++ forestText ns

end

mutual

/-- First node of a subtree satisfying `p`, in pre-order
(BeautifulSoup `find` restricted to one subtree). -/
def findNode (p : Node → Bool) : Node → Option Node
  | .text s => if p (.text s) then some (.text s) else none
  | .elem t i c h s cs =>
      if p (.elem t i c h s cs) then some (.elem t i c h s cs)
      else findForest p cs

/-- First node of a forest satisfying `p`, in pre-order
(BeautifulSoup `soup.find(...)`). -/
def findForest (p : Node → Bool) : List Node → Option Node
  | [] => none
  | n :: ns =>
      match findNode p n with
      | some r => some r
      | none => findForest p ns

end

mutual

/-- All nodes of a subtree satisfying `p`, in pre-order. -/
def findAllNode (p : Node → Bool) : Node → List Node
  | .text s => if p (.text s) then [.text s] else []
  | .elem t i c h s cs =>
      (if p (.elem t i c h s cs) then [Node.elem t i c h s cs] else [])
        ++ findAllForest p cs

/-- All nodes of a forest satisfying `p`, in pre-order
(BeautifulSoup `soup.find_all(...)`). -/
def findAllForest (p : Node → Bool) : List Node → List Node
  | [] => []
  | n :: ns => findAllNode p n ++ findAllForest p ns

end

mutual

/-- Whether some node of a subtree satisfies `p`. -/
def anyNode (p : Node → Bool) : Node → Bool
  | .text s => p (.text s)
  | .elem t i c h s cs => p (.elem t i c h s cs) || anyForest p cs

/-- Whether some node of a forest satisfies `p`. -/
def anyForest (p : Node → Bool) : List Node → Bool
  | [] => false
  | n :: ns => anyNode p n || anyForest p ns

end

mutual

/-- Number of nodes of a subtree satisfying `p`. -/
def countNode (p : Node → Bool) : Node → Nat
  | .text s => if p (.text s) then 1 else 0
  | .elem t i c h s cs =>
      (if p (.elem t i c h s cs) then 1 else 0) + countForest p cs

/-- Number of nodes of a forest satisfying `p`. -/
def countForest (p : Node → Bool) : List Node → Nat
  | [] => 0
  | n :: ns => countNode p n + countForest p ns

end

mutual

/-- Remove, inside one subtree, the first pre-order node satisfying `p`
(the effect of `tag.decompose()` on the first `find` result when it lies
in this subtree).  Only the children can be removed; whether the root
itself matches is decided by the caller. -/
def removeFirstNode (p : Node → Bool) : Node → Node
  | .text s => .text s
  | .elem t i c h s cs => .elem t i c h s (removeFirstForest p cs)

/-- Remove from a forest the first pre-order node satisfying `p`,
together with its whole subtree (BeautifulSoup `find` + `decompose`).
When no node matches, the forest is unchanged. -/
def removeFirstForest (p : Node → Bool) : List Node → List Node
  | [] => []
  | n :: ns =>
      if p n then ns
      else if anyNode p n then removeFirstNode p n :: ns
      else n :: removeFirstForest p ns

end

mutual

/-- Pre-order listing of a subtree, pairing each node with its following
siblings (the semantics of BeautifulSoup's `next_elements` /
`next_siblings`). -/
def flatNode (n : Node) (sibs : List Node) : List (Node × List Node) :=
  match n with
  | .text s => [(.text s, sibs)]
  | .elem t i c h s cs => (.elem t i c h s cs, sibs) :: flatForest cs

/-- Pre-order listing of a forest, pairing each node with its following
siblings. -/
def flatForest : List (Node) → List (Node × List Node)
  | [] => []
  | n :: ns => flatNode n ns ++ flatForest ns

end

/-- Predicate for `soup.find_all("a", class_="timeline-article-title")`
(src/main.py line 55). -/
def isTimelineLink (n : Node) : Bool :=
  tagOf n = some (str "a") && (classesOf n).contains (str "timeline-article-title")

/-- Predicate for `soup.find("h1", class_="article-title")`
(src/main.py line 68). -/
def isArticleTitleH1 (n : Node) : Bool :=
  tagOf n = some (str "h1") && (classesOf n).contains (str "article-title")

/-- Predicate for `title_tag.find("span")` (src/main.py line 69). -/
def isSpan (n : Node) : Bool := tagOf n = some (str "span")

/-- Predicate for `article_soup.find("img")` (src/main.py line 71). -/
def isImg (n : Node) : Bool := tagOf n = some (str "img")

/-- Predicate for `soup.find("section", class_="footnotes")`
(src/main.py line 75). -/
def isFootnotesSection (n : Node) : Bool :=
  tagOf n = some (str "section") && (classesOf n).contains (str "footnotes")

/-- Predicate for the recognised content heading: an `h2` whose `id` is
one of the three identifiers of src/main.py lines 80-83.  The lambda
`lambda x: x in [...]` receives `None` for a tag without `id`, which is
not in the list. -/
def isPropsH2 (n : Node) : Bool :=
  tagOf n = some (str "h2")
    && (idOf n = some (str "Healing-Properties")
        || idOf n = some (str "Biological-Properties")
        || idOf n = some (str "Disease-Symptom-Treatment"))

/-- Predicate for `h3` tags. -/
def isH3 (n : Node) : Bool := tagOf n = some (str "h3")

/-- The hrefs of all listing-page article links, in document order
(`soup.find_all("a", class_="timeline-article-title")`, each resolved
through `link.get("href")`; src/main.py lines 55-56).  A link without an
`href` would make the Python crash on `base_url + None`; the model reads
the attribute with a `[]` default, which no claim depends on. -/
def listingHrefs (doc : List Node) : List Str :=
  (findAllForest isTimelineLink doc).map (fun n => (hrefOf n).getD [])

/-- Title extraction (src/main.py lines 68-69): find `h1.article-title`;
if it exists and contains a `span`, the stripped text of that span,
otherwise `None`. -/
def extractTitle (doc : List Node) : Option Str :=
  match findForest isArticleTitleH1 doc with
  | none => none
  | some h1 =>
      match findForest isSpan (childrenOf h1) with
      | none => none
      | some sp => some (pyStrip (nodeText sp))

/-- Image extraction (src/main.py lines 71-72): the `src` of the first
`img`, or `None` when there is no `img`.  (In Python an `img` without
`src` raises `KeyError`; the model returns `none` there, which no claim
depends on.) -/
def extractImage (doc : List Node) : Option Str :=
  match findForest isImg doc with
  | none => none
  | some n => srcOf n

/-- Footnote removal (src/main.py lines 75-77): `find` the first
`section.footnotes` and `decompose` it; when there is none the document
is unchanged. -/
def removeFootnotes (doc : List Node) : List Node :=
  removeFirstForest isFootnotesSection doc

/-- Number of `section.footnotes` nodes in a document. -/
def countFootnotes (doc : List Node) : Nat :=
  countForest isFootnotesSection doc

/-- The inner loop of content extraction (src/main.py lines 88-92): walk
the following siblings of an `h3`, stopping at the next `h3` or `h2`;
text-node siblings (`.name is None`) are skipped, element siblings
contribute their stripped text. -/
def siblingBlocks : List Node → List Str
  | [] => []
  | .text _ :: rest => siblingBlocks rest
  | .elem t i c h s cs :: rest =>
      if t = str "h3" ∨ t = str "h2" then []
      else pyStrip (nodeText (.elem t i c h s cs)) :: siblingBlocks rest

/-- Content extraction (src/main.py lines 79-92): find the first
recognised `h2`; take the first 10 `h3`s occurring after it in document
order (`find_all_next("h3", limit=10)`); for each, collect its stripped
text followed by the stripped texts of its sibling blocks.  When the
recognised heading is absent the list is empty. -/
def extractContent (doc : List Node) : List Str :=
  match (flatForest doc).dropWhile (fun e => !isPropsH2 e.1) with
  | [] => []
  | _ :: after =>
      (((after.filter (fun e => isH3 e.1)).take 10).map
        (fun e => pyStrip (nodeText e.1) :: siblingBlocks e.2)).flatten

/-- The result tuple of `fetch_random_article`:
`(title, content, image_url, article_url)`, each component optional
exactly as in the Python signature. -/
abbrev FetchTuple := Option Str × Option Str × Option Str × Option Str

/-- The failure value returned when no never-attempted link remains
(src/main.py line 58). -/
def noSuitableLinks : FetchTuple :=
  (none, none, none, some (str "No suitable links found."))

/-- The fixed upstream site, as the fetcher observes it: the parsed
listing page and a parsed article page for every URL. -/
structure SiteEnv where
  listingDoc : List Node
  articleDoc : Str → List Node

/-- The resolved URLs (`base_url + href`) of all listing-page article
links. -/
def resolvedLinks (env : SiteEnv) (baseUrl : Str) : List Str :=
  (listingHrefs env.listingDoc).map (fun h => baseUrl ++ h)

/-- The never-attempted candidates of the listing page: resolved link
URLs not in `attempted` (src/main.py line 56).  The Python filters the
link elements and resolves the chosen one again; filtering the resolved
URLs directly is the same list, position by position. -/
def candidates (env : SiteEnv) (baseUrl : Str) (attempted : List Str) : List Str :=
  (resolvedLinks env baseUrl).filter (fun u => u ∉ attempted)

/-- The article URL chosen by `random.choice(links)` (src/main.py lines
60-61), for the random draw described by the index oracle `pick`.  On a
nonempty candidate list the index is taken modulo the length, so every
candidate is a possible choice and nothing else is. -/
def pickedUrl (env : SiteEnv) (pick : List Str → Nat) (baseUrl : Str)
    (attempted : List Str) : Str :=
  let cands := candidates env baseUrl attempted
  cands.getD (pick cands % cands.length) []

/-- Candidate list after one more attempted URL: the old candidates with
every copy of that URL filtered out. -/
theorem candidates_append (env : SiteEnv) (baseUrl : Str) (attempted : List Str) (u : Str) :
    candidates env baseUrl (attempted ++ [u])
      = (candidates env baseUrl attempted).filter (fun x => x ≠ u) := by
  simp only [candidates, List.filter_filter]
  apply List.filter_congr
  intro x _
  simp [List.mem_append, not_or]
  rw [Bool.and_comm]

/-- On a nonempty candidate list the chosen URL is a candidate. -/
theorem pickedUrl_mem (env : SiteEnv) (pick : List Str → Nat) (baseUrl : Str)
    (attempted : List Str) (h : candidates env baseUrl attempted ≠ []) :
    pickedUrl env pick baseUrl attempted ∈ candidates env baseUrl attempted := by
  have hlt : pick (candidates env baseUrl attempted) % (candidates env baseUrl attempted).length
      < (candidates env baseUrl attempted).length :=
    Nat.mod_lt _ (List.length_pos.mpr h)
  rw [pickedUrl, List.getD_eq_getElem _ _ hlt]
  exact List.getElem_mem hlt

/-- Appending the chosen URL to `attempted` strictly shrinks the
candidate list. -/
theorem candidates_shrink (env : SiteEnv) (pick : List Str → Nat) (baseUrl : Str)
    (attempted : List Str) (h : candidates env baseUrl attempted ≠ []) :
    (candidates env baseUrl (attempted ++ [pickedUrl env pick baseUrl attempted])).length
      < (candidates env baseUrl attempted).length := by
  rw [candidates_append]
  refine List.length_filter_lt_length_iff_exists.mpr ?_
  exact ⟨pickedUrl env pick baseUrl attempted, pickedUrl_mem env pick baseUrl attempted h, by simp⟩

/-- The fetcher `fetch_random_article` (src/main.py lines 45-99), for a
fixed site `env` and random draw `pick`.  The value is the Python return
tuple, paired with the list of HTTP GET requests the call issues (the
listing request of every recursion step and the article request of every
pick, in order) and the number of invocations (initial call plus
recursive calls).  Title and image are read from the article document
before the footnotes section is decomposed, exactly as in the source;
when the extracted content list is empty the fetch retries recursively
with the chosen URL appended to `attempted`. -/
def fetch_random_article (env : SiteEnv) (pick : List Str → Nat)
    (baseUrl categoryPath : Str) (attempted : List Str) :
    FetchTuple × List Str × Nat :=
  let listingUrl := baseUrl ++ categoryPath
  if h : candidates env baseUrl attempted = [] then
    (noSuitableLinks, [listingUrl], 1)
  else
    let articleUrl := pickedUrl env pick baseUrl attempted
    let doc := env.articleDoc articleUrl
    let title := extractTitle doc
    let imageUrl := extractImage doc
    let cleaned := removeFootnotes doc
    let contentList := extractContent cleaned
    if contentList.isEmpty then
      let r := fetch_random_article env pick baseUrl categoryPath (attempted ++ [articleUrl])
      (r.1, listingUrl :: articleUrl :: r.2.1, r.2.2 + 1)
    else
      ((title, some (List.intercalate (str "\n") contentList), imageUrl, some articleUrl),
        [listingUrl, articleUrl], 1)
termination_by (candidates env baseUrl attempted).length
decreasing_by
  exact candidates_shrink env pick baseUrl attempted h

/-- The two environment values `generate_tweet_from_lmstudio` requires
(src/main.py lines 39-40); unset variables are `none`. -/
structure LMConfig where
  lmBaseUrl : Option Str
  lmModel : Option Str

/-- Steps of the composer with observable external effect: constructing
the API client and sending the completion request. -/
inductive GenAction where
  | constructClient
  | sendCompletion

/-- The fixed character budget of src/main.py line 110. -/
def char_budget : Nat := 3000

/-- The composer `generate_tweet_from_lmstudio` (src/main.py lines
101-164).  `modelResponse` stands for the text of the first returned
completion (`resp.choices[0].message.content`).  The value is the
Python result (or the raised configuration error) paired with the trace
of external steps taken; when either configuration value is missing
(unset or empty, Python falsiness) the function raises before the client
is constructed, so the trace is empty. -/
def generate_tweet_from_lmstudio (cfg : LMConfig) (modelResponse : Str) :
    Except Str Str × List GenAction :=
  if !pyTruthyOpt cfg.lmBaseUrl || !pyTruthyOpt cfg.lmModel then
    (.error (str "Missing LMSTUDIO_BASE_URL or LMSTUDIO_MODEL environment variables."), [])
  else
    (.ok ((pyStrip modelResponse).take char_budget), [.constructClient, .sendCompletion])

/-- Assembly of the final post text in `main` (src/main.py lines
465-467): strip `f"{tweet_body}\n\n{article_url}"`, and when its length
exceeds 3000 cut it to 3000 characters and append `"..."`. -/
def assembleFinalText (tweetBody articleUrl : Str) : Str :=
  let s := pyStrip (tweetBody ++ str "\n\n" ++ articleUrl)
  if 3000 < s.length then s.take 3000 ++ str "..." else s

/-- The compose screen as the text-entry step of `post_to_x_via_android`
observes it (src/main.py lines 399-422): whether the specific
`tweet_text` resource id matches, whether the generic `EditText` class
matches, and the elements matching the broad input-class pattern of the
readiness poll.  The screen is taken as fixed for the duration of the
step, so the readiness poll's `inputs_found` flag is the pattern match
being nonempty. -/
structure ComposeScreen where
  tweetTextField : Bool
  editTextField : Bool
  patternInputs : List Str

/-- Result of the readiness poll (src/main.py lines 399-407) on a fixed
screen: some pattern-matching input element exists. -/
def inputsFound (s : ComposeScreen) : Bool := !s.patternInputs.isEmpty

/-- Outcome of the text-entry step: which element received `set_text`,
or the raised error. -/
inductive EnterTextOutcome where
  | viaTweetTextId
  | viaEditTextClass
  | viaFirstPatternInput (e : Str)
  | failure (msg : Str)

/-- The text-entry selector cascade (src/main.py lines 409-422): the
specific `tweet_text` resource id, else the generic `EditText` class,
else — when the readiness poll had found inputs — the first element
matching the broad pattern; `RuntimeError` when everything is
exhausted. -/
def enterTweetText (s : ComposeScreen) : EnterTextOutcome :=
  if s.tweetTextField then .viaTweetTextId
  else if s.editTextField then .viaEditTextClass
  else if inputsFound s then
    match s.patternInputs with
    | e :: _ => .viaFirstPatternInput e
    | [] => .failure (str "Tweet text field not found. Inspect the editor element.")
  else .failure (str "Tweet text field not found. Inspect the editor element.")

/-- Device-automation steps of `main` with observable external effect. -/
inductive DeviceAction where
  | downloadImageViaBrave (imageUrl : Str)
  | postToXViaAndroid (finalText : Str) (attachLatestImage : Bool)

/-- Observable behaviour of one `main` run: everything printed to
standard output (one entry per `print` call, in order), the composer
steps taken, the device-automation steps taken, and the raised error if
the run raised. -/
structure MainTrace where
  printed : List Str
  genActions : List GenAction
  deviceActions : List DeviceAction
  error : Option Str

/-- Sixty equals signs, `"=" * 60` of src/main.py. -/
def eqLine : Str := List.replicate 60 '='

/-- Sixty dashes, `"-" * 60` of src/main.py. -/
def dashLine : Str := List.replicate 60 '-'

/-- The driver `main` (src/main.py lines 434-491) after the scrape:
`fetched` is the tuple `fetch_random_article` returned, `cfg` and
`modelResponse` feed the composer.  Mirrors the source line by line: the
scrape guard of line 445 (raising when title, content or article URL is
falsy), the prints, the composer call, the final-text assembly, and —
only outside dry-run mode — the image download and the Android posting
with `attach_latest_image=bool(image_url)`. -/
def mainRun (dryRun : Bool) (fetched : FetchTuple) (cfg : LMConfig)
    (modelResponse : Str) : MainTrace :=
  let title := fetched.1
  let content := fetched.2.1
  let imageUrl := fetched.2.2.1
  let articleUrl := fetched.2.2.2
  let out1 := [str "Scraping article..."]
  if !(pyTruthyOpt title && pyTruthyOpt content && pyTruthyOpt articleUrl) then
    { printed := out1, genActions := [], deviceActions := [],
      error := some (str "Failed to scrape article content.") }
  else
    let t := title.getD []
    let c := content.getD []
    let u := articleUrl.getD []
    let out2 := out1 ++ [str "Got article: " ++ t ++ str " (" ++ u ++ str ")"]
    let out3 := out2 ++ (if pyTruthyOpt imageUrl then [str "Image URL: " ++ imageUrl.getD []] else [])
    let out4 := out3 ++ (if dryRun then
        [ '\n' :: eqLine,
          str "DRY RUN MODE - Web Scraped Content",
          eqLine,
          str "\nTitle: " ++ t,
          str "\nArticle URL: " ++ u,
          str "\nImage URL: " ++ (if pyTruthyOpt imageUrl then imageUrl.getD [] else str "None"),
          str "\nContent:\n" ++ dashLine,
          c,
          dashLine ]
      else [])
    let out5 := out4 ++ [str "\nGenerating tweet with LM Studio..."]
    let gen := generate_tweet_from_lmstudio cfg modelResponse
    match gen.1 with
    | .error e =>
        { printed := out5, genActions := gen.2, deviceActions := [], error := some e }
    | .ok tweet_body =>
        let final_text := assembleFinalText tweet_body u
        if dryRun then
          { printed := out5 ++
              [ '\n' :: eqLine,
                str "DRY RUN MODE - Model Generated Post",
                eqLine,
                str "\nTweet Body (length: " ++ natStr tweet_body.length ++ str "):",
                tweet_body,
                str "\nFinal Post (length: " ++ natStr final_text.length ++ str "):",
                final_text,
                eqLine,
                str "\n[DRY RUN] Skipping Android posting",
                str "Done." ],
            genActions := gen.2, deviceActions := [], error := none }
        else
          { printed := out5 ++
              [ str "\n--- Tweet preview ---", final_text, str "---------------------\n" ] ++
              (if pyTruthyOpt imageUrl then [str "Downloading image via Brave..."] else []) ++
              [ str "Posting to X via Android...", str "Done." ],
            genActions := gen.2,
            deviceActions :=
              (if pyTruthyOpt imageUrl then [DeviceAction.downloadImageViaBrave (imageUrl.getD [])] else [])
                ++ [DeviceAction.postToXViaAndroid final_text (pyTruthyOpt imageUrl)],
            error := none }

/-! ### Constants of the source (src/main.py lines 37-38) -/

/-- The scraped site's base URL. -/
def BASE_URL : Str := str "https://wikip.co"

/-- The category listing path. -/
def CATEGORY_PATH : Str := str "/categories/natural-healing/"

/-- Index oracle that always picks the first candidate. -/
def pick0 : List Str → Nat := fun _ => 0

/-! ### Concrete fixtures used by witnesses and counterexamples -/

/-- A listing page with a single article link `/a/x`. -/
def listingOneX : List Node :=
  [ .elem (str "a") none [str "timeline-article-title"] (some (str "/a/x")) none
      [.text (str "An article")] ]

/-- Site whose only article has no recognised heading, hence empty
extracted content. -/
def envEmptyContent : SiteEnv :=
  { listingDoc := listingOneX
    articleDoc := fun _ => [.elem (str "p") none [] none none [.text (str "hello")]] }

/-- An article body with a recognised heading, one sub-heading and one
paragraph (and no `h1` title and no image). -/
def articleBodyOk : List Node :=
  [ .elem (str "h2") (some (str "Healing-Properties")) [] none none
      [.text (str "Healing Properties")],
    .elem (str "h3") none [] none none [.text (str "Benefits")],
    .elem (str "p") none [] none none [.text (str "Reduces inflammation.")] ]

/-- A listing page with a single article link `/a/healing-herb`. -/
def listingHerb : List Node :=
  [ .elem (str "a") none [str "timeline-article-title"] (some (str "/a/healing-herb")) none
      [.text (str "Healing herb")] ]

/-- Site whose only article extracts successfully but has no title. -/
def envNoTitle : SiteEnv :=
  { listingDoc := listingHerb
    articleDoc := fun _ => articleBodyOk }

/-! ### Claim C3 -/

/-- Helper: when every resolved listing link is already attempted there
are no candidates. -/
theorem candidates_eq_nil_of_all_attempted (env : SiteEnv) (baseUrl : Str)
    (attempted : List Str) (h : ∀ u ∈ resolvedLinks env baseUrl, u ∈ attempted) :
    candidates env baseUrl attempted = [] := by
  rw [candidates, List.filter_eq_nil_iff]
  intro u hu
  simpa using h u hu

/-- C3: on a listing page where every article link's resolved URL is
already in `attempted`, `fetch_random_article` returns the
`No suitable links found.` failure tuple, and the only HTTP request it
issues is the listing request — no article-page request is made. -/
theorem fetch_all_attempted_no_candidates (env : SiteEnv) (pick : List Str → Nat)
    (baseUrl categoryPath : Str) (attempted : List Str)
    (h : ∀ u ∈ resolvedLinks env baseUrl, u ∈ attempted) :
    fetch_random_article env pick baseUrl categoryPath attempted
      = (noSuitableLinks, [baseUrl ++ categoryPath], 1) := by
  rw [fetch_random_article, dif_pos (candidates_eq_nil_of_all_attempted env baseUrl attempted h)]

/-- Witness for C3: with the one listing link `/a/x` already attempted,
the fetch fails with the failure tuple after the listing request only. -/
theorem fetch_all_attempted_no_candidates_witness :
    (∀ u ∈ resolvedLinks envEmptyContent BASE_URL, u ∈ [str "https://wikip.co/a/x"]) ∧
    fetch_random_article envEmptyContent pick0 BASE_URL CATEGORY_PATH [str "https://wikip.co/a/x"]
      = (noSuitableLinks, [BASE_URL ++ CATEGORY_PATH], 1) :=
  ⟨by decide,
    fetch_all_attempted_no_candidates envEmptyContent pick0 BASE_URL CATEGORY_PATH
      [str "https://wikip.co/a/x"] (by decide)⟩

/-! ### Claim C4 -/

/-- Helper: the chosen candidate was never attempted. -/
theorem pickedUrl_not_attempted (env : SiteEnv) (pick : List Str → Nat) (baseUrl : Str)
    (attempted : List Str) (h : candidates env baseUrl attempted ≠ []) :
    pickedUrl env pick baseUrl attempted ∉ attempted := by
  have hmem := pickedUrl_mem env pick baseUrl attempted h
  rw [candidates] at hmem
  simpa using (List.mem_filter.mp hmem).2

/-- C4: when there is a candidate but the picked article's extraction
yields no content blocks, `fetch_random_article` does not return that
empty content: it recurses, its result being the result at the attempted
set extended by the just-picked URL, and that URL was not previously
attempted, so the attempted set strictly grows by it on the recursive
step. -/
theorem fetch_empty_content_recurses (env : SiteEnv) (pick : List Str → Nat)
    (baseUrl categoryPath : Str) (attempted : List Str)
    (hne : candidates env baseUrl attempted ≠ [])
    (hempty : extractContent (removeFootnotes
        (env.articleDoc (pickedUrl env pick baseUrl attempted))) = []) :
    pickedUrl env pick baseUrl attempted ∉ attempted ∧
    (attempted ++ [pickedUrl env pick baseUrl attempted]).length = attempted.length + 1 ∧
    (fetch_random_article env pick baseUrl categoryPath attempted).1
      = (fetch_random_article env pick baseUrl categoryPath
          (attempted ++ [pickedUrl env pick baseUrl attempted])).1 := by
  refine ⟨pickedUrl_not_attempted env pick baseUrl attempted hne, by simp, ?_⟩
  rw [fetch_random_article, dif_neg hne]
  simp only [hempty, List.isEmpty_nil, if_pos]

/-- Witness for C4: on the site whose only article has no recognised
heading, the first fetch step picks `/a/x`, finds no content, and
recurses with the attempted set grown by that URL. -/
theorem fetch_empty_content_recurses_witness :
    (candidates envEmptyContent BASE_URL [] ≠ [] ∧
      extractContent (removeFootnotes
        (envEmptyContent.articleDoc (pickedUrl envEmptyContent pick0 BASE_URL []))) = []) ∧
    (pickedUrl envEmptyContent pick0 BASE_URL [] ∉ ([] : List Str) ∧
      (([] : List Str) ++ [pickedUrl envEmptyContent pick0 BASE_URL []]).length = ([] : List Str).length + 1 ∧
      (fetch_random_article envEmptyContent pick0 BASE_URL CATEGORY_PATH []).1
        = (fetch_random_article envEmptyContent pick0 BASE_URL CATEGORY_PATH
            ([] ++ [pickedUrl envEmptyContent pick0 BASE_URL []])).1) :=
  ⟨⟨by decide, by decide⟩,
    fetch_empty_content_recurses envEmptyContent pick0 BASE_URL CATEGORY_PATH []
      (by decide) (by decide)⟩

/-! ### Claim C2 -/

/-- Helper: growing the attempted set only removes candidates. -/
theorem candidates_append_subset (env : SiteEnv) (baseUrl : Str)
    (attempted : List Str) (u : Str) :
    candidates env baseUrl (attempted ++ [u]) ⊆ candidates env baseUrl attempted := by
  rw [candidates_append]
  exact (List.filter_sublist _).subset

/-- Helper for C2, by induction on the number of candidates: whenever
`fetch_random_article` returns a tuple whose content component is
`some`, the article-URL component is a candidate URL that was not in the
initial attempted set. -/
theorem fetch_success_url_aux (env : SiteEnv) (pick : List Str → Nat)
    (baseUrl categoryPath : Str) :
    ∀ (k : Nat) (attempted : List Str),
      (candidates env baseUrl attempted).length ≤ k →
      ∀ c : Str,
        (fetch_random_article env pick baseUrl categoryPath attempted).1.2.1 = some c →
        ∃ url, (fetch_random_article env pick baseUrl categoryPath attempted).1.2.2.2 = some url ∧
          url ∈ candidates env baseUrl attempted := by
  intro k
  induction k with
  | zero =>
    intro attempted h c hc
    have hnil : candidates env baseUrl attempted = [] :=
      List.length_eq_zero.mp (Nat.le_zero.mp h)
    rw [fetch_random_article, dif_pos hnil] at hc
    simp [noSuitableLinks] at hc
  | succ k ih =>
    intro attempted h c hc
    by_cases hnil : candidates env baseUrl attempted = []
    · rw [fetch_random_article, dif_pos hnil] at hc
      simp [noSuitableLinks] at hc
    · rw [fetch_random_article, dif_neg hnil] at hc ⊢
      by_cases he : (extractContent (removeFootnotes
          (env.articleDoc (pickedUrl env pick baseUrl attempted)))).isEmpty
      · simp only [he, if_true] at hc ⊢
        have hlt := candidates_shrink env pick baseUrl attempted hnil
        obtain ⟨url, hurl, hmem⟩ :=
          ih (attempted ++ [pickedUrl env pick baseUrl attempted]) (by omega) c hc
        exact ⟨url, hurl, candidates_append_subset env baseUrl attempted _ hmem⟩
      · simp only [he, if_false] at hc ⊢
        exact ⟨pickedUrl env pick baseUrl attempted, rfl,
          pickedUrl_mem env pick baseUrl attempted hnil⟩

/-- C2 (amended): whenever `fetch_random_article` succeeds — returns a
tuple with extracted content — its article URL is drawn from the
never-attempted candidate links of the listing page.  (The original
claim, that a never-attempted link always yields a success, fails: see
the counterexample, where the only never-attempted article has no
extractable content and the fetch returns the failure tuple instead.) -/
theorem fetch_success_url_mem_candidates (env : SiteEnv) (pick : List Str → Nat)
    (baseUrl categoryPath : Str) (attempted : List Str) (c : Str)
    (hc : (fetch_random_article env pick baseUrl categoryPath attempted).1.2.1 = some c) :
    ∃ url, (fetch_random_article env pick baseUrl categoryPath attempted).1.2.2.2 = some url ∧
      url ∈ candidates env baseUrl attempted :=
  fetch_success_url_aux env pick baseUrl categoryPath
    (candidates env baseUrl attempted).length attempted (Nat.le_refl _) c hc

/-- Counterexample to C2 as stated: the listing page of
`envEmptyContent` has a never-attempted article link, yet
`fetch_random_article` does not return an article URL drawn from that
candidate set — the pick's extraction is empty, the retry exhausts the
candidates, and the failure tuple (whose fourth slot is the message
`No suitable links found.`, not a candidate URL) is returned. -/
theorem fetch_nonempty_candidates_may_fail :
    candidates envEmptyContent BASE_URL [] = [str "https://wikip.co/a/x"] ∧
    str "No suitable links found." ∉ candidates envEmptyContent BASE_URL [] ∧
    (fetch_random_article envEmptyContent pick0 BASE_URL CATEGORY_PATH []).1 = noSuitableLinks ∧
    (fetch_random_article envEmptyContent pick0 BASE_URL CATEGORY_PATH []).1.2.1 = none := by
  refine ⟨by decide, by decide, ?_, ?_⟩ <;>
  · rw [fetch_random_article, dif_neg (by decide)]
    dsimp only
    rw [if_pos (by decide : (extractContent (removeFootnotes (envEmptyContent.articleDoc
      (pickedUrl envEmptyContent pick0 BASE_URL [])))).isEmpty = true)]
    dsimp only
    rw [fetch_random_article, dif_pos (by decide)]
    try rfl

/-- Witness for C2: on `envNoTitle` the fetch succeeds, and the theorem
places its article URL among the candidates of the listing page. -/
theorem fetch_success_url_mem_candidates_witness :
    (fetch_random_article envNoTitle pick0 BASE_URL CATEGORY_PATH []).1.2.1
        = some (str "Benefits\nReduces inflammation.") ∧
    ∃ url, (fetch_random_article envNoTitle pick0 BASE_URL CATEGORY_PATH []).1.2.2.2 = some url ∧
      url ∈ candidates envNoTitle BASE_URL [] :=
  ⟨by rw [fetch_random_article]; decide,
    fetch_success_url_mem_candidates envNoTitle pick0 BASE_URL CATEGORY_PATH []
      (str "Benefits\nReduces inflammation.") (by rw [fetch_random_article]; decide)⟩

/-! ### Claim C10 -/

/-- Helper for C10, by induction on the number of candidates: the number
of invocations of `fetch_random_article` (initial call plus recursive
calls) is at most one more than the number of never-attempted
candidates. -/
theorem fetch_calls_le_aux (env : SiteEnv) (pick : List Str → Nat)
    (baseUrl categoryPath : Str) :
    ∀ (k : Nat) (attempted : List Str),
      (candidates env baseUrl attempted).length ≤ k →
      (fetch_random_article env pick baseUrl categoryPath attempted).2.2 ≤ k + 1 := by
  intro k
  induction k with
  | zero =>
    intro attempted h
    have hnil : candidates env baseUrl attempted = [] :=
      List.length_eq_zero.mp (Nat.le_zero.mp h)
    rw [fetch_random_article, dif_pos hnil]
  | succ k ih =>
    intro attempted h
    by_cases hnil : candidates env baseUrl attempted = []
    · rw [fetch_random_article, dif_pos hnil]
      exact Nat.le_add_left 1 (k + 1)
    · rw [fetch_random_article, dif_neg hnil]
      dsimp only
      by_cases he : (extractContent (removeFootnotes
          (env.articleDoc (pickedUrl env pick baseUrl attempted)))).isEmpty = true
      · rw [if_pos he]
        dsimp only
        have hlt := candidates_shrink env pick baseUrl attempted hnil
        have hrec := ih (attempted ++ [pickedUrl env pick baseUrl attempted]) (by omega)
        omega
      · rw [if_neg he]
        dsimp only
        omega

/-- C10: for every fixed listing page with `n` article links,
`fetch_random_article` terminates (it is a total function of this
development), and because each recursive call strictly shrinks the
never-attempted candidate set, the total number of invocations — the
recursion depth — is at most `n + 1`. -/
theorem fetch_terminates_call_bound (env : SiteEnv) (pick : List Str → Nat)
    (baseUrl categoryPath : Str) :
    (fetch_random_article env pick baseUrl categoryPath []).2.2
      ≤ (listingHrefs env.listingDoc).length + 1 := by
  apply fetch_calls_le_aux
  calc (candidates env baseUrl []).length
      ≤ (resolvedLinks env baseUrl).length := List.length_filter_le _ _
    _ = (listingHrefs env.listingDoc).length := List.length_map _ _


/-! ### Claim C1 -/

/-- Helper: stripping a string whose first and last characters are not
whitespace changes nothing. -/
theorem pyStrip_eq_self_of_ends (c d : Char) (l : Str)
    (hc : c.isWhitespace = false) (hd : d.isWhitespace = false) :
    pyStrip (c :: (l ++ [d])) = c :: (l ++ [d]) := by
  unfold pyStrip
  rw [List.dropWhile_cons, if_neg (by simp [hc])]
  have h2 : (c :: (l ++ [d])).reverse = d :: (l.reverse ++ [c]) := by simp
  rw [h2, List.dropWhile_cons, if_neg (by simp [hd]), ← h2, List.reverse_reverse]

/-- C1 (amended): the final post text assembled by `main` never exceeds
3003 characters — the 3000-character ceiling plus the three-character
ellipsis marker; whenever the stripped body-plus-URL combination exceeds
the ceiling, the output is exactly 3003 characters and its tail beyond
the ceiling is exactly the marker `...`.  (The original claim — final
length never exceeds 3000 and equals 3000 when truncation fires — fails:
the source appends `"..."` after cutting to 3000, see the
counterexample.) -/
theorem assembleFinalText_length_bound (tweetBody articleUrl : Str) :
    (assembleFinalText tweetBody articleUrl).length ≤ 3003 ∧
    (3000 < (pyStrip (tweetBody ++ str "\n\n" ++ articleUrl)).length →
      (assembleFinalText tweetBody articleUrl).length = 3003 ∧
      (assembleFinalText tweetBody articleUrl).drop 3000 = str "...") := by
  unfold assembleFinalText
  have hdots : (str "...").length = 3 := by decide
  by_cases h : 3000 < (pyStrip (tweetBody ++ str "\n\n" ++ articleUrl)).length
  · rw [if_pos h]
    have htake : ((pyStrip (tweetBody ++ str "\n\n" ++ articleUrl)).take 3000).length = 3000 := by
      rw [List.length_take]
      omega
    refine ⟨?_, fun _ => ⟨?_, ?_⟩⟩
    · rw [List.length_append, htake, hdots]
    · rw [List.length_append, htake, hdots]
    · have hdrop := List.drop_left
        ((pyStrip (tweetBody ++ str "\n\n" ++ articleUrl)).take 3000) (str "...")
      rw [htake] at hdrop
      exact hdrop
  · rw [if_neg h]
    exact ⟨by omega, fun hcontra => absurd hcontra h⟩

/-- A 3000-character generated tweet body, written with an explicit head
so that stripping reasons locally. -/
def bigBody : Str := 'a' :: List.replicate 2999 'a'

/-- The article URL used in the C1 counterexample. -/
def cexUrl : Str := str "https://wikip.co/a/x"

/-- Helper: the C1 counterexample combination strips to itself and has
3022 characters. -/
theorem cex_strip_eval :
    pyStrip (bigBody ++ str "\n\n" ++ cexUrl) = bigBody ++ str "\n\n" ++ cexUrl ∧
    (pyStrip (bigBody ++ str "\n\n" ++ cexUrl)).length = 3022 := by
  have hurl : cexUrl = str "https://wikip.co/a/" ++ ['x'] := by decide
  have hshape : bigBody ++ str "\n\n" ++ cexUrl
      = 'a' :: ((List.replicate 2999 'a' ++ str "\n\n" ++ str "https://wikip.co/a/") ++ ['x']) := by
    rw [hurl, bigBody]
    simp only [List.cons_append, List.append_assoc]
  have hstrip : pyStrip (bigBody ++ str "\n\n" ++ cexUrl) = bigBody ++ str "\n\n" ++ cexUrl := by
    rw [hshape]
    exact pyStrip_eq_self_of_ends 'a' 'x' _ (by decide) (by decide)
  refine ⟨hstrip, ?_⟩
  rw [hstrip, hshape]
  have l1 : (str "\n\n").length = 2 := by decide
  have l2 : (str "https://wikip.co/a/").length = 19 := by decide
  simp only [List.length_cons, List.length_append, List.length_replicate, l1, l2]
  simp

/-- Helper: the final text at the counterexample inputs has 3003
characters. -/
theorem cex_final_len : (assembleFinalText bigBody cexUrl).length = 3003 := by
  rw [assembleFinalText]
  have hs := cex_strip_eval.2
  rw [if_pos (by rw [hs]; omega)]
  have hdots : (str "...").length = 3 := by decide
  rw [List.length_append, List.length_take, hs, hdots]
  omega

/-- Counterexample to C1 as stated: for the generated tweet body
`bigBody` — a possible composer output, being exactly what the composer
returns for a 3000-character model response — and the article URL
`cexUrl`, the stripped combination has 3022 characters, so truncation
fires, and the final text has 3003 characters: it exceeds the
3000-character ceiling instead of being exactly the ceiling length. -/
theorem assembleFinalText_exceeds_ceiling :
    (generate_tweet_from_lmstudio ⟨some (str "http://localhost:1234/v1"), some (str "m")⟩ bigBody).1
        = .ok bigBody ∧
    3000 < (pyStrip (bigBody ++ str "\n\n" ++ cexUrl)).length ∧
    (assembleFinalText bigBody cexUrl).length = 3003 ∧
    3000 < (assembleFinalText bigBody cexUrl).length := by
  have hlen3003 : (assembleFinalText bigBody cexUrl).length = 3003 := cex_final_len
  refine ⟨?_, by rw [cex_strip_eval.2]; omega, hlen3003, by omega⟩
  unfold generate_tweet_from_lmstudio
  rw [if_neg (by decide)]
  have hsplit : bigBody = 'a' :: (List.replicate 2998 'a' ++ ['a']) := by
    rw [bigBody, show (2999 : Nat) = 2998 + 1 from rfl, List.replicate_succ']
  have hstripBig : pyStrip bigBody = bigBody := by
    rw [hsplit]
    exact pyStrip_eq_self_of_ends 'a' 'a' _ (by decide) (by decide)
  have hlen : bigBody.length = 3000 := by
    rw [bigBody, List.length_cons, List.length_replicate]
  rw [hstripBig]
  rw [List.take_of_length_le (by rw [hlen, char_budget])]

/-- Witness for C1: the amended bound applied at the counterexample
inputs — truncation fires, the output has 3003 characters and ends with
the marker. -/
theorem assembleFinalText_length_bound_witness :
    3000 < (pyStrip (bigBody ++ str "\n\n" ++ cexUrl)).length ∧
    ((assembleFinalText bigBody cexUrl).length = 3003 ∧
      (assembleFinalText bigBody cexUrl).drop 3000 = str "...") :=
  ⟨by rw [cex_strip_eval.2]; omega,
    (assembleFinalText_length_bound bigBody cexUrl).2
      (by rw [cex_strip_eval.2]; omega)⟩

/-! ### Claim C5 -/

/-- Helper: a subtree with no matching node has a non-matching root. -/
theorem anyNode_false_root (P : Node → Bool) (n : Node) (h : anyNode P n = false) :
    P n = false := by
  cases n with
  | text s => simpa [anyNode] using h
  | elem t i c hr sr cs =>
      rw [anyNode, Bool.or_eq_false_iff] at h
      exact h.1

/-- Helper, by induction on the size of the forest: a matching node
exists exactly when the match count is positive. -/
theorem any_count_forest_aux (P : Node → Bool) :
    ∀ (k : Nat) (f : List Node), sizeOf f ≤ k →
      (anyForest P f = true ↔ 0 < countForest P f) := by
  intro k
  induction k with
  | zero =>
    intro f hf
    cases f with
    | nil => simp [anyForest, countForest]
    | cons n ns =>
      exfalso
      have hsz : sizeOf (n :: ns) = 1 + sizeOf n + sizeOf ns := rfl
      omega
  | succ k ih =>
    intro f hf
    cases f with
    | nil => simp [anyForest, countForest]
    | cons n ns =>
      have hns : sizeOf ns ≤ k := by simp [List.cons.sizeOf_spec] at hf; omega
      have h2 := ih ns hns
      rw [anyForest, countForest]
      cases n with
      | text s =>
        by_cases hp : P (.text s) <;>
          simp [anyNode, countNode, hp, Bool.or_eq_true, h2]
      | elem t i c hr sr cs =>
        have hcs : sizeOf cs ≤ k := by
          simp [List.cons.sizeOf_spec, Node.elem.sizeOf_spec] at hf; omega
        have h1 := ih cs hcs
        by_cases hp : P (.elem t i c hr sr cs) <;>
          simp [anyNode, countNode, hp, Bool.or_eq_true, h1, h2]

/-- Helper: removing the first match in a forest with no match changes
nothing (the `find` of src/main.py line 75 returns `None` and nothing is
decomposed). -/
theorem removeFirstForest_of_not_any (P : Node → Bool) :
    ∀ f : List Node, anyForest P f = false → removeFirstForest P f = f := by
  intro f
  induction f with
  | nil => simp [removeFirstForest]
  | cons n ns ih =>
    intro h
    rw [anyForest, Bool.or_eq_false_iff] at h
    rw [removeFirstForest, if_neg (by simp [anyNode_false_root P n h.1]),
      if_neg (by simp [h.1]), ih h.2]

/-- Helper, by induction on the size of the forest: removing the first
footnotes section from a document containing exactly one brings the
count to zero. -/
theorem count_remove_footnotes_aux :
    ∀ (k : Nat) (f : List Node), sizeOf f ≤ k →
      countForest isFootnotesSection f = 1 →
      countForest isFootnotesSection (removeFirstForest isFootnotesSection f) = 0 := by
  intro k
  induction k with
  | zero =>
    intro f hf h1
    cases f with
    | nil => simp [countForest] at h1
    | cons n ns =>
      exfalso
      have hsz : sizeOf (n :: ns) = 1 + sizeOf n + sizeOf ns := rfl
      omega
  | succ k ih =>
    intro f hf h1
    cases f with
    | nil => simp [countForest] at h1
    | cons n ns =>
      have hns : sizeOf ns ≤ k := by simp [List.cons.sizeOf_spec] at hf; omega
      rw [countForest] at h1
      by_cases hp : isFootnotesSection n = true
      · rw [removeFirstForest, if_pos hp]
        have hn1 : 1 ≤ countNode isFootnotesSection n := by
          cases n with
          | text s => rw [countNode, if_pos hp]
          | elem t i c hr sr cs => rw [countNode, if_pos hp]; omega
        omega
      · rw [removeFirstForest, if_neg hp]
        by_cases ha : anyNode isFootnotesSection n = true
        · rw [if_pos ha]
          cases n with
          | text s => rw [anyNode] at ha; exact absurd ha hp
          | elem t i c hr sr cs =>
            have hcs : sizeOf cs ≤ k := by
              simp [List.cons.sizeOf_spec, Node.elem.sizeOf_spec] at hf; omega
            rw [countNode, if_neg hp, Nat.zero_add] at h1
            have hcspos : 0 < countForest isFootnotesSection cs := by
              apply (any_count_forest_aux isFootnotesSection (sizeOf cs) cs (Nat.le_refl _)).mp
              rw [anyNode, Bool.or_eq_true] at ha
              rcases ha with ha | ha
              · exact absurd ha hp
              · exact ha
            have hc1 : countForest isFootnotesSection cs = 1 := by omega
            have hns0 : countForest isFootnotesSection ns = 0 := by omega
            have hp2 : ¬ isFootnotesSection
                (Node.elem t i c hr sr (removeFirstForest isFootnotesSection cs)) = true := hp
            rw [countForest, removeFirstNode, countNode, if_neg hp2,
              ih cs hcs hc1, hns0]
        · rw [if_neg ha]
          have hn0 : countNode isFootnotesSection n = 0 := by
            have hiff := any_count_forest_aux isFootnotesSection (sizeOf [n]) [n] (Nat.le_refl _)
            rw [anyForest, anyForest, countForest, countForest] at hiff
            simp only [Bool.or_false, Nat.add_zero] at hiff
            have hnot : ¬ (0 < countNode isFootnotesSection n) := fun hpos => ha (hiff.mpr hpos)
            omega
          have hns1 : countForest isFootnotesSection ns = 1 := by omega
          rw [countForest, hn0, ih ns hns hns1]

/-- C5 (amended): for an article document containing exactly one
footnotes section, the document from which `fetch_random_article`
extracts content — `removeFootnotes` of the article page — contains no
footnotes section at all, so no footnote text can flow into the content;
and removing footnotes is idempotent there: removing them from the
already-cleaned document changes nothing.  (The original claim, stated
for one **or more** footnotes sections, fails: the source decomposes only
the first `find` match, see the counterexample with two sections.) -/
theorem footnotes_removed_once (doc : List Node) (h : countFootnotes doc = 1) :
    countFootnotes (removeFootnotes doc) = 0 ∧
    removeFootnotes (removeFootnotes doc) = removeFootnotes doc := by
  have h0 : countFootnotes (removeFootnotes doc) = 0 :=
    count_remove_footnotes_aux (sizeOf doc) doc (Nat.le_refl _) h
  refine ⟨h0, ?_⟩
  apply removeFirstForest_of_not_any
  have hiff := any_count_forest_aux isFootnotesSection (sizeOf (removeFootnotes doc))
    (removeFootnotes doc) (Nat.le_refl _)
  cases hb : anyForest isFootnotesSection (removeFootnotes doc) with
  | false => rfl
  | true =>
    have := hiff.mp hb
    have hc : countForest isFootnotesSection (removeFirstForest isFootnotesSection doc) = 0 := h0
    rw [removeFootnotes] at this
    omega

/-- An article document with two footnotes sections: one before the
recognised heading and one sitting among the sibling blocks of the
sub-heading. -/
def docTwoFootnotes : List Node :=
  [ .elem (str "section") none [str "footnotes"] none none [.text (str "fn1")],
    .elem (str "h2") (some (str "Healing-Properties")) [] none none
      [.text (str "Healing Properties")],
    .elem (str "h3") none [] none none [.text (str "Benefits")],
    .elem (str "section") none [str "footnotes"] none none [.text (str "fn2")],
    .elem (str "p") none [] none none [.text (str "para")] ]

/-- Counterexample to C5 as stated: on a document with two footnotes
sections only the first is decomposed, the second section's descendant
text `fn2` appears in the extracted content, and removal is not
idempotent — removing again changes the already-cleaned document. -/
theorem footnotes_leak_with_two_sections :
    countFootnotes docTwoFootnotes = 2 ∧
    str "fn2" ∈ extractContent (removeFootnotes docTwoFootnotes) ∧
    List.intercalate (str "\n") (extractContent (removeFootnotes docTwoFootnotes))
      = str "Benefits\nfn2\npara" ∧
    removeFootnotes (removeFootnotes docTwoFootnotes) ≠ removeFootnotes docTwoFootnotes := by
  refine ⟨by decide, by decide, by decide, fun hcontra => ?_⟩
  have h := congrArg countFootnotes hcontra
  rw [show countFootnotes (removeFootnotes (removeFootnotes docTwoFootnotes)) = 0 from by decide,
    show countFootnotes (removeFootnotes docTwoFootnotes) = 1 from by decide] at h
  exact absurd h (by decide)

/-- An article document with exactly one footnotes section. -/
def docOneFootnote : List Node :=
  [ .elem (str "section") none [str "footnotes"] none none [.text (str "fn1")],
    .elem (str "p") none [] none none [.text (str "para")] ]

/-- Witness for C5: on a document with exactly one footnotes section the
cleaned document has none left and a second removal changes nothing. -/
theorem footnotes_removed_once_witness :
    countFootnotes docOneFootnote = 1 ∧
    (countFootnotes (removeFootnotes docOneFootnote) = 0 ∧
      removeFootnotes (removeFootnotes docOneFootnote) = removeFootnotes docOneFootnote) :=
  ⟨by decide, footnotes_removed_once docOneFootnote (by decide)⟩

/-! ### Claim C6 -/

/-- C6: in the text-entry step the selectors are tried in fixed priority
order — the specific `tweet_text` resource id first, then the generic
`EditText` class, then (only if the readiness poll had detected input
elements) the first element matching the broad input pattern — the first
matching selector receives the post text, and the
`Tweet text field not found` fatal error is raised exactly when every
selector in the sequence is exhausted. -/
theorem enterTweetText_priority (s : ComposeScreen) :
    (s.tweetTextField = true → enterTweetText s = .viaTweetTextId) ∧
    (s.tweetTextField = false → s.editTextField = true →
      enterTweetText s = .viaEditTextClass) ∧
    (∀ e rest, s.tweetTextField = false → s.editTextField = false →
      s.patternInputs = e :: rest →
      enterTweetText s = .viaFirstPatternInput e) ∧
    (∀ msg, enterTweetText s = .failure msg →
      s.tweetTextField = false ∧ s.editTextField = false ∧ s.patternInputs = []) := by
  refine ⟨?_, ?_, ?_, ?_⟩
  · intro h1
    rw [enterTweetText, if_pos h1]
  · intro h1 h2
    rw [enterTweetText, if_neg (by simp [h1]), if_pos h2]
  · intro e rest h1 h2 h3
    rw [enterTweetText, if_neg (by simp [h1]), if_neg (by simp [h2]),
      if_pos (by simp [inputsFound, h3]), h3]
  · intro msg h
    rw [enterTweetText] at h
    by_cases h1 : s.tweetTextField = true
    · rw [if_pos h1] at h
      simp at h
    · rw [if_neg h1] at h
      by_cases h2 : s.editTextField = true
      · rw [if_pos h2] at h
        simp at h
      · rw [if_neg h2] at h
        by_cases h3 : inputsFound s = true
        · rw [if_pos h3] at h
          cases hp : s.patternInputs with
          | nil => rw [inputsFound, hp] at h3; simp at h3
          | cons e rest => rw [hp] at h; simp at h
        · rw [if_neg h3] at h
          refine ⟨by simpa using h1, by simpa using h2, ?_⟩
          rw [inputsFound] at h3
          simpa using h3

/-- Witness for C6: on a screen without the specific resource id but
with a generic `EditText`, the text goes to the `EditText` selector. -/
theorem enterTweetText_priority_witness :
    enterTweetText ⟨false, true, [str "input0"]⟩ = .viaEditTextClass :=
  (enterTweetText_priority ⟨false, true, [str "input0"]⟩).2.1 rfl rfl

/-! ### Claim C7 -/

/-- C7: when the model-endpoint configuration value or the
model-identifier configuration value is absent (unset or empty, Python
falsiness), `generate_tweet_from_lmstudio` fails with the configuration
error and takes no external step: no client is constructed and no
completion request is sent. -/
theorem generate_missing_config_fails (cfg : LMConfig) (modelResponse : Str)
    (h : pyTruthyOpt cfg.lmBaseUrl = false ∨ pyTruthyOpt cfg.lmModel = false) :
    (generate_tweet_from_lmstudio cfg modelResponse).1
        = .error (str "Missing LMSTUDIO_BASE_URL or LMSTUDIO_MODEL environment variables.") ∧
    (generate_tweet_from_lmstudio cfg modelResponse).2 = [] := by
  unfold generate_tweet_from_lmstudio
  rcases h with h | h <;> rw [if_pos (by simp [h])] <;> exact ⟨rfl, rfl⟩

/-- Witness for C7: with the endpoint unset the composer raises the
configuration error and takes no external step. -/
theorem generate_missing_config_fails_witness :
    pyTruthyOpt (LMConfig.mk none (some (str "m"))).lmBaseUrl = false ∧
    ((generate_tweet_from_lmstudio ⟨none, some (str "m")⟩ (str "resp")).1
        = .error (str "Missing LMSTUDIO_BASE_URL or LMSTUDIO_MODEL environment variables.") ∧
      (generate_tweet_from_lmstudio ⟨none, some (str "m")⟩ (str "resp")).2 = []) :=
  ⟨rfl, generate_missing_config_fails ⟨none, some (str "m")⟩ (str "resp") (Or.inl rfl)⟩

/-! ### Claim C8 -/

/-- C8: a dry-run invocation with a successful scrape (truthy title,
content and article URL) and a successful composer call (both
configuration values present) prints the article title, the article URL
and the final composed post text to standard output, and performs zero
device-automation calls. -/
theorem dry_run_prints_and_no_device (t c : Str) (img : Option Str) (u : Str)
    (cfg : LMConfig) (modelResponse : Str)
    (ht : pyTruthyOpt (some t) = true) (hc : pyTruthyOpt (some c) = true)
    (hu : pyTruthyOpt (some u) = true)
    (hb : pyTruthyOpt cfg.lmBaseUrl = true) (hm : pyTruthyOpt cfg.lmModel = true) :
    (mainRun true (some t, some c, img, some u) cfg modelResponse).deviceActions = [] ∧
    (mainRun true (some t, some c, img, some u) cfg modelResponse).error = none ∧
    (str "\nTitle: " ++ t) ∈ (mainRun true (some t, some c, img, some u) cfg modelResponse).printed ∧
    (str "\nArticle URL: " ++ u)
      ∈ (mainRun true (some t, some c, img, some u) cfg modelResponse).printed ∧
    assembleFinalText ((pyStrip modelResponse).take char_budget) u
      ∈ (mainRun true (some t, some c, img, some u) cfg modelResponse).printed := by
  have hgen : generate_tweet_from_lmstudio cfg modelResponse
      = (.ok ((pyStrip modelResponse).take char_budget),
          [.constructClient, .sendCompletion]) := by
    rw [generate_tweet_from_lmstudio, if_neg (by simp [hb, hm])]
  unfold mainRun
  rw [if_neg (by simp [ht, hc, hu])]
  dsimp only
  rw [hgen]
  dsimp only
  refine ⟨rfl, rfl, ?_, ?_, ?_⟩ <;> simp [List.mem_append]

/-- Witness for C8: a concrete dry run prints the three items and takes
no device action. -/
theorem dry_run_prints_and_no_device_witness :
    (mainRun true (some (str "T"), some (str "C"), none, some (str "U"))
        ⟨some (str "B"), some (str "M")⟩ (str "R")).deviceActions = [] ∧
    (mainRun true (some (str "T"), some (str "C"), none, some (str "U"))
        ⟨some (str "B"), some (str "M")⟩ (str "R")).error = none ∧
    (str "\nTitle: " ++ str "T") ∈ (mainRun true (some (str "T"), some (str "C"), none,
        some (str "U")) ⟨some (str "B"), some (str "M")⟩ (str "R")).printed ∧
    (str "\nArticle URL: " ++ str "U") ∈ (mainRun true (some (str "T"), some (str "C"), none,
        some (str "U")) ⟨some (str "B"), some (str "M")⟩ (str "R")).printed ∧
    assembleFinalText ((pyStrip (str "R")).take char_budget) (str "U")
      ∈ (mainRun true (some (str "T"), some (str "C"), none,
        some (str "U")) ⟨some (str "B"), some (str "M")⟩ (str "R")).printed :=
  dry_run_prints_and_no_device (str "T") (str "C") none (str "U")
    ⟨some (str "B"), some (str "M")⟩ (str "R") rfl rfl rfl rfl rfl

/-! ### Claim C9 -/

/-- C9: when the scrape returns non-empty content and a valid article
URL but a `None` title, `main` raises the scrape-failure error before
any composer step and before any device-automation step — even though
the fetcher itself treats an absent title as non-fatal, as the second
conjunct shows on a concrete site: `fetch_random_article` succeeds there
with a `none` title. -/
theorem null_title_scrape_failure (dryRun : Bool) (c : Str) (img : Option Str) (u : Str)
    (cfg : LMConfig) (modelResponse : Str) (_hc : c ≠ []) (_hu : u ≠ []) :
    ((mainRun dryRun (none, some c, img, some u) cfg modelResponse).error
        = some (str "Failed to scrape article content.") ∧
      (mainRun dryRun (none, some c, img, some u) cfg modelResponse).genActions = [] ∧
      (mainRun dryRun (none, some c, img, some u) cfg modelResponse).deviceActions = []) ∧
    (fetch_random_article envNoTitle pick0 BASE_URL CATEGORY_PATH []).1
      = (none, some (str "Benefits\nReduces inflammation."), none,
          some (str "https://wikip.co/a/healing-herb")) := by
  constructor
  · unfold mainRun
    rw [if_pos (by simp [pyTruthyOpt])]
    exact ⟨rfl, rfl, rfl⟩
  · rw [fetch_random_article]
    decide

/-- Witness for C9: a concrete run with a `none` title, non-empty
content and URL raises the scrape failure with no composer or device
step. -/
theorem null_title_scrape_failure_witness :
    str "C" ≠ ([] : Str) ∧ str "U" ≠ ([] : Str) ∧
    (((mainRun false (none, some (str "C"), none, some (str "U")) ⟨none, none⟩ (str "R")).error
        = some (str "Failed to scrape article content.") ∧
      (mainRun false (none, some (str "C"), none, some (str "U")) ⟨none, none⟩
          (str "R")).genActions = [] ∧
      (mainRun false (none, some (str "C"), none, some (str "U")) ⟨none, none⟩
          (str "R")).deviceActions = []) ∧
    (fetch_random_article envNoTitle pick0 BASE_URL CATEGORY_PATH []).1
      = (none, some (str "Benefits\nReduces inflammation."), none,
          some (str "https://wikip.co/a/healing-herb"))) :=
  ⟨by decide, by decide,
    null_title_scrape_failure false (str "C") none (str "U") ⟨none, none⟩ (str "R")
      (by decide) (by decide)⟩
